import Mathlib

/-!
A shallow embedding of the NotJS tree-walking interpreter (parser with
integrated scope resolution, AST, value model, environment, evaluator),
translated from the Rust sources under `src/`.  Numbers (`f64` in the
source) are modelled as rationals; machine floating point is not needed
by any property treated here.  Rust `panic!`/`unwrap()` aborts are
modelled by explicit `panic` outcome constructors, and the unbounded
recursion of the Rust evaluator and parser is modelled with an explicit
fuel parameter (the `fuel` outcome is an artifact of the embedding and
never arises for the concrete runs below when enough fuel is supplied).
-/

namespace NotJS

/-- `TokenType` from `src/common/token.rs`. -/
inductive TokenType where
  | LeftParentheses | RightParentheses | LeftBrace | RightBrace
  | LeftBracket | RightBracket | Comma | Dot | QuestionMark | Colon | Semicolon
  | Plus | PlusEqual | Minus | MinusEqual | Star | StarEqual | Slash | SlashEqual
  | Bang | BangEqual | Equal | EqualEqual | Greater | GreaterEqual | Less | LessEqual
  | Number | String | Identifier
  | And | Or | Function | Class | Interface | Implements | If | Else | Bool
  | True | False | Null | While | For | Return | Break | Continue
  | Print | Println | SelfTok | Let | Const
  | Error | Newline
  deriving DecidableEq, Repr

mutual

/-- `Value` from `src/common/value.rs`; `Number(f64)` is modelled with `ℚ`. -/
inductive Value where
  | Null : Value
  | Number : ℚ → Value
  | String : String → Value
  | Boolean : Bool → Value
  | Array : List Value → Value
  | Function : Func → Value

/-- `Function` from `src/common/function.rs` (named `Func` here because the
constructor `Value.Function` keeps the source name). -/
inductive Func where
  | mk : Token → List Token → Stmt → Func

/-- `Token` from `src/common/token.rs`. -/
inductive Token where
  | mk : TokenType → Value → Nat → Token

/-- The expression variants of `src/common/expressions.rs`, one constructor
per struct implementing the `Expression` trait. -/
inductive Expr where
  | assignment : Token → TokenType → Expr → Nat → Expr
  | conditional : Expr → Expr → Expr → Expr
  | binary : Expr → Token → Expr → Expr
  | unary : Token → Expr → Expr
  | postfixExpr : Expr → PostfixOp → Expr
  | identifier : Token → Expr
  | arrayLiteral : List Expr → Expr
  | literal : Value → Expr

/-- `PostfixOperator` from `src/common/expressions.rs`. -/
inductive PostfixOp where
  | index : Expr → PostfixOp
  | dot : String → PostfixOp
  | call : List Expr → PostfixOp

/-- The statement variants of `src/common/statements.rs`, one constructor per
struct implementing the `Statement` trait.  `functionDeclaration` wraps the
function record as built by `Parser::function_statement`. -/
inductive Stmt where
  | block : List Stmt → Stmt
  | variableDeclaration : Bool → Token → Option Expr → Nat → Stmt
  | functionDeclaration : Func → Stmt
  | expressionStatement : Expr → Stmt
  | printStatement : Expr → Bool → Stmt
  | ifStatement : Expr → Stmt → Option Stmt → Stmt
  | whileStatement : Expr → Stmt → Stmt
  | returnStatement : Option Expr → Stmt

end

/-- Field accessor: `Token.token_type`. -/
def Token.tokenType : Token → TokenType
  | .mk t _ _ => t

/-- Field accessor: `Token.value`. -/
def Token.value : Token → Value
  | .mk _ v _ => v

/-- Field accessor: `Token.line`. -/
def Token.line : Token → Nat
  | .mk _ _ l => l

/-- Field accessor: `Function.name`. -/
def Func.name : Func → Token
  | .mk n _ _ => n

/-- Field accessor: `Function.parameters`. -/
def Func.parameters : Func → List Token
  | .mk _ p _ => p

/-- Field accessor: `Function.body`. -/
def Func.body : Func → Stmt
  | .mk _ _ b => b

/-- `RuntimeError` from `src/error/runtime.rs`. -/
structure RuntimeError where
  message : String
  deriving DecidableEq

/-- Rust's `Display` for `f64` (decimal form); on the rational model we print
the numerator when the denominator is 1, which agrees with the source on every
integral number appearing in this development. -/
def numToString (q : ℚ) : String :=
  if q.den = 1 then toString q.num else toString q.num ++ "/" ++ toString q.den

/-- `Value::is_truthy` from `src/common/value.rs`. -/
def Value.isTruthy : Value → Bool
  | .Null => false
  | .Number num => num != 0
  | .String str => !(str.isEmpty)
  | .Boolean b => b
  | .Array arr => !(arr.isEmpty)
  | .Function _ => true

mutual

/-- `impl PartialEq for Value` from `src/common/value.rs`: structural equality
across same-tagged values, `false` otherwise (in particular on any pair of
`Function` values, even identical ones). -/
def valueEq : Value → Value → Bool
  | .Null, .Null => true
  | .Number val1, .Number val2 => val1 == val2
  | .String val1, .String val2 => val1 == val2
  | .Boolean val1, .Boolean val2 => val1 == val2
  | .Array val1, .Array val2 => valueListEq val1 val2
  | _, _ => false

/-- `Vec<Value>` equality: same length, elementwise `valueEq`. -/
def valueListEq : List Value → List Value → Bool
  | [], [] => true
  | x :: xs, y :: ys => valueEq x y && valueListEq xs ys
  | _, _ => false

end

/-- Total comparison on the rational number model (`f64::partial_cmp` is total
away from NaN, which the rational model does not have). -/
def ratCmp (a b : ℚ) : Ordering :=
  if a < b then .lt else if a = b then .eq else .gt

/-- `bool::partial_cmp`: `false < true`. -/
def boolCmp (a b : Bool) : Ordering :=
  match a, b with
  | false, true => .lt
  | true, false => .gt
  | _, _ => .eq

/-- `String::partial_cmp`: lexicographic. -/
def strCmp (a b : String) : Ordering :=
  if a < b then .lt else if a = b then .eq else .gt

/-- `impl PartialOrd for Value` from `src/common/value.rs`: only two numbers,
two strings or two booleans are ordered; every other pair gives `None`. -/
def valuePartialCmp : Value → Value → Option Ordering
  | .Number val1, .Number val2 => some (ratCmp val1 val2)
  | .String val1, .String val2 => some (strCmp val1 val2)
  | .Boolean val1, .Boolean val2 => some (boolCmp val1 val2)
  | _, _ => none

/-- Rust's derived `<` from `PartialOrd::partial_cmp`. -/
def valueLt (a b : Value) : Bool := valuePartialCmp a b == some .lt

/-- Rust's derived `<=` from `PartialOrd::partial_cmp`. -/
def valueLe (a b : Value) : Bool :=
  valuePartialCmp a b == some .lt || valuePartialCmp a b == some .eq

/-- Rust's derived `>` from `PartialOrd::partial_cmp`. -/
def valueGt (a b : Value) : Bool := valuePartialCmp a b == some .gt

/-- Rust's derived `>=` from `PartialOrd::partial_cmp`. -/
def valueGe (a b : Value) : Bool :=
  valuePartialCmp a b == some .gt || valuePartialCmp a b == some .eq

/-- `impl Add for Value`: numbers add; strings concatenate; a number and a
string concatenate with the number stringified — note the source appends the
number on the right in both mixed cases. -/
def valueAdd : Value → Value → Except RuntimeError Value
  | .Number val1, .Number val2 => .ok (.Number (val1 + val2))
  | .String val1, .String val2 => .ok (.String (val1 ++ val2))
  | .Number val1, .String val2 => .ok (.String (val2 ++ numToString val1))
  | .String val1, .Number val2 => .ok (.String (val1 ++ numToString val2))
  | _, _ => .error ⟨"Invalid Operands"⟩

/-- `impl Sub for Value`: numbers only. -/
def valueSub : Value → Value → Except RuntimeError Value
  | .Number val1, .Number val2 => .ok (.Number (val1 - val2))
  | _, _ => .error ⟨"Invalid Operands"⟩

/-- `impl Mul for Value`: numbers only. -/
def valueMul : Value → Value → Except RuntimeError Value
  | .Number val1, .Number val2 => .ok (.Number (val1 * val2))
  | _, _ => .error ⟨"Invalid Operands"⟩

/-- `impl Div for Value`: numbers only (division by zero, like `f64`, does not
error; the rational model returns 0 where `f64` returns an infinity, a
difference no property below touches). -/
def valueDiv : Value → Value → Except RuntimeError Value
  | .Number val1, .Number val2 => .ok (.Number (val1 / val2))
  | _, _ => .error ⟨"Invalid Operands"⟩

/-- `impl Neg for Value`: numbers only. -/
def valueNeg : Value → Except RuntimeError Value
  | .Number val1 => .ok (.Number (-val1))
  | _ => .error ⟨"Invalid Operands"⟩

/-- `impl Not for Value`: boolean negation of truthiness, total. -/
def valueNot (v : Value) : Value := .Boolean (!(v.isTruthy))

mutual

/-- `impl Display for Value` from `src/common/value.rs`.  The `Function` case
prints the record's derived `Debug` form in the source; it is abstracted to a
fixed string here (no property below displays a function). -/
def valueToString : Value → String
  | .Null => "Null"
  | .Number num => numToString num
  | .String str => str
  | .Boolean b => toString b
  | .Array arr => "[" ++ valueListToString arr ++ "]"
  | .Function _ => "<function>"

/-- Comma-separated rendering of array elements, as the source's loop. -/
def valueListToString : List Value → String
  | [] => ""
  | [x] => valueToString x
  | x :: xs => valueToString x ++ ", " ++ valueListToString xs

end

mutual

/-- `impl Debug for Value` from `src/common/value.rs` (strings quoted). -/
def valueDebugToString : Value → String
  | .Null => "Null"
  | .Number num => numToString num
  | .String str => "\"" ++ str ++ "\""
  | .Boolean b => toString b
  | .Array arr => "[" ++ valueListDebugToString arr ++ "]"
  | .Function _ => "<function>"

/-- Comma-separated `Debug` rendering of array elements. -/
def valueListDebugToString : List Value → String
  | [] => ""
  | [x] => valueDebugToString x
  | x :: xs => valueDebugToString x ++ ", " ++ valueListDebugToString xs

end

/-- The string key a token contributes to scope maps: the source calls
`identifier.value.to_string()` (the `Display` form of the token's value). -/
def Token.key (t : Token) : String := valueToString t.value

/-- `RuntimeError::new_undeclared_variable`. -/
def RuntimeError.newUndeclaredVariable (token : Token) : RuntimeError :=
  ⟨"Undeclared variable: " ++ valueToString token.value ++ " at line " ++
    toString token.line ++ "\n"⟩

/-- `RuntimeError::new_undefined_variable`. -/
def RuntimeError.newUndefinedVariable (token : Token) : RuntimeError :=
  ⟨"Undefined variable: " ++ valueToString token.value ++ " at line " ++
    toString token.line ++ "\n"⟩

/-- `RuntimeError::new_immutable_variable`. -/
def RuntimeError.newImmutableVariable (token : Token) : RuntimeError :=
  ⟨"Immutable variable assignment: " ++ valueToString token.value ++
    " at line " ++ toString token.line ++ "\n"⟩

/-! ### Hash maps as association lists

`HashMap<String, _>` is modelled as an association list whose `insert`
replaces an existing binding in place (or appends), and whose `get` returns
the first binding with the key; lookup behaviour coincides with the hash
map's. -/

/-- `HashMap::get`. -/
def lookupAL {α : Type} : List (String × α) → String → Option α
  | [], _ => none
  | (k, v) :: rest, key => if k = key then some v else lookupAL rest key

/-- `HashMap::insert` (replace an existing key, else append). -/
def insertAL {α : Type} : List (String × α) → String → α → List (String × α)
  | [], key, v => [(key, v)]
  | (k, w) :: rest, key, v =>
    if k = key then (key, v) :: rest else (k, w) :: insertAL rest key v

/-- `Variable` from `src/interpreter/environment.rs`. -/
structure Variable where
  mutable : Bool
  value : Option Value

/-- One runtime scope frame: `HashMap<String, Variable>`. -/
abbrev Frame := List (String × Variable)

/-- `Environment` from `src/interpreter/environment.rs`: a stack of frames;
index 0 is the bottom (global) frame and the last entry is the innermost. -/
structure Environment where
  environment : List Frame

/-- `Environment::new`: one empty global frame. -/
def Environment.new : Environment := ⟨[[]]⟩

/-- `Environment::push`. -/
def Environment.push (env : Environment) : Environment :=
  ⟨env.environment ++ [[]]⟩

/-- `Environment::pop` (`Vec::pop` is a no-op error-free on empty). -/
def Environment.pop (env : Environment) : Environment :=
  ⟨env.environment.dropLast⟩

/-- `Environment::define`: insert into the innermost (last) frame.  The
source unwraps `last_mut()`; an `Environment` always has at least one frame
(`new` starts with one), so the empty case is unreachable and left as the
identity. -/
def Environment.define (env : Environment) (identifier : Token)
    (value : Option Value) (mutable : Bool) : Environment :=
  match env.environment.getLast? with
  | none => env
  | some top =>
    ⟨env.environment.dropLast ++ [insertAL top identifier.key ⟨mutable, value⟩]⟩

/-- Outcome of `Environment::assign`: the mutated environment, a runtime
error (environment unchanged), or a Rust panic (out-of-bounds `Vec` index). -/
inductive AssignResult where
  | ok : Environment → AssignResult
  | err : RuntimeError → AssignResult
  | panicked : AssignResult

/-- `Environment::assign` from `src/interpreter/environment.rs`: indexes the
frame stack directly at the resolver-computed `index` (`self.environment[index]`)
— it does not search the stack; the innermost-to-outermost search is commented
out in the source. -/
def Environment.assign (env : Environment) (identifier : Token) (value : Value)
    (index : Nat) : AssignResult :=
  match env.environment[index]? with
  | none => .panicked
  | some frame =>
    match lookupAL frame identifier.key with
    | none => .err (RuntimeError.newUndeclaredVariable identifier)
    | some var =>
      if !var.mutable then
        .err (RuntimeError.newImmutableVariable identifier)
      else
        .ok ⟨env.environment.set index
              (insertAL frame identifier.key ⟨var.mutable, some value⟩)⟩

/-- `Environment::get` from `src/interpreter/environment.rs`: searches frames
innermost-to-outermost (`iter().rev()`); a binding with no value yields
`UndefinedVariable`, a name absent from every frame yields
`UndeclaredVariable`. -/
def envGetFrames (frames : List Frame) (identifier : Token) :
    Except RuntimeError Value :=
  match frames with
  | [] => .error (RuntimeError.newUndeclaredVariable identifier)
  | scope :: rest =>
    match lookupAL scope identifier.key with
    | some var =>
      match var.value with
      | some value => .ok value
      | none => .error (RuntimeError.newUndefinedVariable identifier)
    | none => envGetFrames rest identifier

/-- `Environment::get` (the reversed iteration is realized by reversing the
frame list before the front-to-back search). -/
def Environment.get (env : Environment) (identifier : Token) :
    Except RuntimeError Value :=
  envGetFrames env.environment.reverse identifier

/-! ### Parse errors (`src/error/parse.rs`) -/

/-- A single parse error.  `message` is `ParseError::new_single`;
`missingToken` models `ParseError::new_missing_token` (its constructor body is
not part of the sources, only its call sites in `src/parser/mod.rs` are, so it
is kept structured); `unexpectedEof` is `ParseError::new_unexpected_eof`. -/
inductive SingleErr where
  | message : String → SingleErr
  | missingToken : TokenType → Token → SingleErr
  | unexpectedEof : SingleErr

/-- `ParseError`: a single error or an aggregation (`Multiple`). -/
inductive ParseError where
  | single : SingleErr → ParseError
  | multiple : List ParseError → ParseError

/-! ### Resolver (`src/parser/resolver.rs`) -/

/-- `Variable` from `src/parser/resolver.rs`. -/
structure RVariable where
  mutable : Bool
  defined : Bool

/-- One resolver scope: `HashMap<String, Variable>`. -/
abbrev RFrame := List (String × RVariable)

/-- `Resolver`: a stack of scopes, index 0 outermost, last innermost. -/
structure Resolver where
  scopes : List RFrame

/-- `Resolver::new`. -/
def Resolver.new : Resolver := ⟨[[]]⟩

/-- `Resolver::push`. -/
def Resolver.push (r : Resolver) : Resolver := ⟨r.scopes ++ [[]]⟩

/-- `Resolver::pop`. -/
def Resolver.pop (r : Resolver) : Resolver := ⟨r.scopes.dropLast⟩

/-- `Resolver::declare`: insert into the innermost scope, return that scope's
index (`scopes.len() - 1`).  As in `Environment.define`, the scope stack is
never empty at a call site, so the empty case is left as the identity. -/
def Resolver.declare (r : Resolver) (identifier : Token) (mutable defined : Bool) :
    Nat × Resolver :=
  match r.scopes.getLast? with
  | none => (0, r)
  | some top =>
    (r.scopes.length - 1,
     ⟨r.scopes.dropLast ++ [insertAL top identifier.key ⟨mutable, defined⟩]⟩)

/-- Innermost-to-outermost search over scopes returning the found scope's
index into the stack, as `scopes.iter().enumerate().rev()`. -/
def rfindInnermost : List RFrame → String → Option (Nat × RVariable)
  | [], _ => none
  | scope :: rest, key =>
    match rfindInnermost rest key with
    | some (i, v) => some (i + 1, v)
    | none =>
      match lookupAL scope key with
      | some v => some (0, v)
      | none => none

/-- `Resolver::define` from `src/parser/resolver.rs`: used at assignment
sites; innermost-to-outermost search for the name; mutable hit returns the
scope index, immutable hit and absence are parse errors. -/
def Resolver.define (r : Resolver) (identifier : Token) :
    Except ParseError Nat :=
  match rfindInnermost r.scopes identifier.key with
  | some (index, v) =>
    if v.mutable then .ok index
    else .error (.single (.message
      ("Cannot reassign immutable variable \x27" ++ valueToString identifier.value ++
       "\x27 at line " ++ toString identifier.line ++ ".")))
  | none =>
    .error (.single (.message
      ("Undeclared variable \x27" ++ valueToString identifier.value ++
       "\x27 at line " ++ toString identifier.line ++ ".")))

/-- `Resolver::resolve` from `src/parser/resolver.rs`: used at identifier-read
sites; a defined hit succeeds, a declared-but-undefined hit is the
parse-time uninitialized-read error, absence is the undeclared error. -/
def Resolver.resolve (r : Resolver) (identifier : Token) :
    Except ParseError Unit :=
  match rfindInnermost r.scopes identifier.key with
  | some (_, v) =>
    if v.defined then .ok ()
    else .error (.single (.message
      ("Cannot read uninitialized variable \x27" ++ valueToString identifier.value ++
       "\x27 at line " ++ toString identifier.line ++ ".")))
  | none =>
    .error (.single (.message
      ("Undeclared variable \x27" ++ valueToString identifier.value ++
       "\x27 at line " ++ toString identifier.line ++ ".")))

/-! ### Evaluator (`src/interpreter/evaluate.rs`, `src/interpreter/execute.rs`,
`src/common/function.rs`)

`evaluate`/`execute` return `RuntimeResult<Value>` mutating a `&mut
Environment`; here they return the value (or error) together with the updated
environment.  A `panicked` outcome models a Rust `panic!` (an `unwrap()` on an
`Err`/out-of-bounds access); `outOfFuel` is the embedding's fuel artifact. -/

/-- Outcome of evaluating an expression or executing a statement. -/
inductive EvalOutcome where
  | ok : Value → Environment → EvalOutcome
  | err : RuntimeError → Environment → EvalOutcome
  | panicked : String → EvalOutcome
  | outOfFuel : EvalOutcome

/-- Outcome of evaluating a list of expressions left to right. -/
inductive EvalListOutcome where
  | ok : List Value → Environment → EvalListOutcome
  | err : RuntimeError → Environment → EvalListOutcome
  | panicked : String → EvalListOutcome
  | outOfFuel : EvalListOutcome

/-- Parameter binding in `Function::call`: `parameters.iter().zip(arguments)`
defined one by one into the current (just-pushed) frame, immutably. -/
def bindParams : List Token → List Value → Environment → Environment
  | p :: ps, a :: rest, env => bindParams ps rest (env.define p (some a) false)
  | _, _, env => env

/-- `f64 as usize` for a non-negative value: truncation. -/
def ratToNat (q : ℚ) : Nat := q.floor.toNat

/-- `.unwrap()` on a `RuntimeResult<Value>` as done by the arithmetic arms of
`BinaryExpression::evaluate` (and `UnaryExpression::evaluate`): an `Err`
becomes a process panic, not a returned runtime error. -/
def unwrapBin (r : Except RuntimeError Value) (env : Environment) : EvalOutcome :=
  match r with
  | .ok v => .ok v env
  | .error er => .panicked er.message

/-- One-character slice `string[i..i+1]`. -/
def sliceOne (str : String) (i : Nat) (env : Environment) : EvalOutcome :=
  if i + 1 ≤ str.length then
    .ok (.String (String.mk ((str.data.drop i).take 1))) env
  else .panicked "byte index out of bounds"

/-- Bounds-checked `Vec` indexing (panics out of range). -/
def arrGet (arr : List Value) (i : Nat) (env : Environment) : EvalOutcome :=
  match arr[i]? with
  | some v => .ok v env
  | none => .panicked "index out of bounds"

/-- `string[index..index+1]` with the source's negative-index adjustment
(`len - |index|`, where `usize` subtraction panics on underflow and slicing
panics out of range). -/
def indexString (str : String) (num : ℚ) (env : Environment) : EvalOutcome :=
  if num < 0 then
    let a := ratToNat (-num)
    if str.length < a then .panicked "attempt to subtract with overflow"
    else sliceOne str (str.length - a) env
  else sliceOne str (ratToNat num) env

/-- `array[index]` with the source's negative-index adjustment. -/
def indexArray (arr : List Value) (num : ℚ) (env : Environment) : EvalOutcome :=
  if num < 0 then
    let a := ratToNat (-num)
    if arr.length < a then .panicked "attempt to subtract with overflow"
    else arrGet arr (arr.length - a) env
  else arrGet arr (ratToNat num) env

/-- The shared shape of the compound-assignment arms (`+=`, `-=`, `*=`, `/=`)
of `AssignmentExpression::evaluate`: read the current value through
`Environment::get`, apply the value-model operator (whose `Err` is
`.unwrap()`ed, i.e. a panic), and assign the result back through the resolved
scope index. -/
def compoundAssign (identifier : Token) (v : Value) (scope : Nat)
    (op : Value → Value → Except RuntimeError Value) (env : Environment) :
    EvalOutcome :=
  match env.get identifier with
  | .error er => .err er env
  | .ok left =>
    match op left v with
    | .error er => .panicked er.message
    | .ok left2 =>
      match env.assign identifier left2 scope with
      | .ok e2 => .ok left2 e2
      | .err er => .err er env
      | .panicked => .panicked "index out of bounds"

mutual

/-- The `Expression::evaluate` implementations of
`src/interpreter/evaluate.rs`, one match arm per variant. -/
def evalExpr (fuel : Nat) (e : Expr) (env : Environment) : EvalOutcome :=
  match fuel with
  | 0 => .outOfFuel
  | fuel+1 =>
    match e with
    | .assignment identifier op value scope =>
      match evalExpr fuel value env with
      | .ok v e1 =>
        match op with
        | .Equal =>
          match e1.assign identifier v scope with
          | .ok e2 => .ok v e2
          | .err er => .err er e1
          | .panicked => .panicked "index out of bounds"
        | .PlusEqual => compoundAssign identifier v scope valueAdd e1
        | .MinusEqual => compoundAssign identifier v scope valueSub e1
        | .StarEqual => compoundAssign identifier v scope valueMul e1
        | .SlashEqual => compoundAssign identifier v scope valueDiv e1
        | _ => .err ⟨"Invalid assignment operator"⟩ e1
      | other => other
    | .conditional condition thenBranch elseBranch =>
      match evalExpr fuel condition env with
      | .ok c e1 =>
        if c.isTruthy then evalExpr fuel thenBranch e1
        else evalExpr fuel elseBranch e1
      | other => other
    | .binary left operator right =>
      match evalExpr fuel left env with
      | .ok l e1 =>
        match evalExpr fuel right e1 with
        | .ok r e2 =>
          match operator.tokenType with
          | .Plus => unwrapBin (valueAdd l r) e2
          | .Minus => unwrapBin (valueSub l r) e2
          | .Star => unwrapBin (valueMul l r) e2
          | .Slash => unwrapBin (valueDiv l r) e2
          | .EqualEqual => .ok (.Boolean (valueEq l r)) e2
          | .BangEqual => .ok (.Boolean (!(valueEq l r))) e2
          | .Greater => .ok (.Boolean (valueGt l r)) e2
          | .GreaterEqual => .ok (.Boolean (valueGe l r)) e2
          | .Less => .ok (.Boolean (valueLt l r)) e2
          | .LessEqual => .ok (.Boolean (valueLe l r)) e2
          | .And => if l.isTruthy then .ok r e2 else .ok l e2
          | .Or => if l.isTruthy then .ok l e2 else .ok r e2
          | _ => .err ⟨"Invalid binary operator"⟩ e2
        | other => other
      | other => other
    | .unary operator right =>
      match evalExpr fuel right env with
      | .ok r e1 =>
        match operator.tokenType with
        | .Minus => unwrapBin (valueNeg r) e1
        | .Bang => .ok (valueNot r) e1
        | _ => .err ⟨"Invalid unary operator"⟩ e1
      | other => other
    | .postfixExpr left op =>
      match evalExpr fuel left env with
      | .ok l e1 =>
        match op with
        | .index indexExpr =>
          match evalExpr fuel indexExpr e1 with
          | .ok idx e2 =>
            match l with
            | .String str =>
              match idx with
              | .Number num => indexString str num e2
              | _ => .err ⟨"Invalid index operator"⟩ e2
            | .Array arr =>
              match idx with
              | .Number num => indexArray arr num e2
              | _ => .err ⟨"Invalid index operator"⟩ e2
            | _ => .err ⟨"Invalid index operator"⟩ e2
          | other => other
        | .dot name =>
          match l with
          | .String str =>
            if name = "length" then .ok (.Number str.length) e1
            else .err ⟨"Invalid dot operator"⟩ e1
          | .Array arr =>
            if name = "length" then .ok (.Number arr.length) e1
            else .err ⟨"Invalid dot operator"⟩ e1
          | _ => .err ⟨"Invalid dot operator"⟩ e1
        | .call argExprs =>
          match l with
          | .Function f =>
            match evalArgs fuel argExprs e1 with
            | .ok vals e2 => callFunction fuel f vals e2
            | .err er e2 => .err er e2
            | .panicked m => .panicked m
            | .outOfFuel => .outOfFuel
          | _ => .err ⟨"Invalid call operator"⟩ e1
      | other => other
    | .identifier tok =>
      match env.get tok with
      | .ok v => .ok v env
      | .error er => .err er env
    | .arrayLiteral elements =>
      match evalArgs fuel elements env with
      | .ok vs e1 => .ok (.Array vs) e1
      | .err er e1 => .err er e1
      | .panicked m => .panicked m
      | .outOfFuel => .outOfFuel
    | .literal v => .ok v env
termination_by structural fuel

/-- Left-to-right evaluation of an expression list (call arguments / array
elements), stopping at the first error as the source's
`collect::<RuntimeResult<Vec<Value>>>()` / element loop. -/
def evalArgs (fuel : Nat) (es : List Expr) (env : Environment) : EvalListOutcome :=
  match fuel with
  | 0 => .outOfFuel
  | fuel+1 =>
    match es with
    | [] => .ok [] env
    | e :: es =>
      match evalExpr fuel e env with
      | .ok v e1 =>
        match evalArgs fuel es e1 with
        | .ok vs e2 => .ok (v :: vs) e2
        | other => other
      | .err er e1 => .err er e1
      | .panicked m => .panicked m
      | .outOfFuel => .outOfFuel
termination_by structural fuel

/-- The `Statement::execute` implementations of
`src/interpreter/execute.rs`, one match arm per variant. -/
def execStmt (fuel : Nat) (s : Stmt) (env : Environment) : EvalOutcome :=
  match fuel with
  | 0 => .outOfFuel
  | fuel+1 =>
    match s with
    | .block stmts =>
      match execStmts fuel stmts .Null env.push with
      | .ok r e1 => .ok r e1.pop
      | other => other
    | .variableDeclaration mutable identifier initializer _scope =>
      match initializer with
      | some ie =>
        match evalExpr fuel ie env with
        | .ok v e1 => .ok .Null (e1.define identifier (some v) mutable)
        | other => other
      | none => .ok .Null (env.define identifier none mutable)
    | .functionDeclaration f =>
      .ok .Null (env.define f.name (some (.Function f)) false)
    | .expressionStatement e => evalExpr fuel e env
    | .printStatement e _newLine =>
      match evalExpr fuel e env with
      | .ok v e1 => .ok v e1
      | other => other
    | .ifStatement condition thenBranch elseBranch =>
      match evalExpr fuel condition env with
      | .ok c e1 =>
        if c.isTruthy then execStmt fuel thenBranch e1
        else
          match elseBranch with
          | some eb => execStmt fuel eb e1
          | none => .ok .Null e1
      | other => other
    | .whileStatement condition body => whileLoop fuel condition body .Null env
    | .returnStatement value =>
      match value with
      | some ve => evalExpr fuel ve env
      | none => .ok .Null env
termination_by structural fuel

/-- `BlockStatement::execute`'s statement loop: result starts as `Null` and
becomes the last statement's result; the first error propagates immediately
(the enclosing `pop` is skipped on error, as by Rust's `?`). -/
def execStmts (fuel : Nat) (ss : List Stmt) (res : Value) (env : Environment) : EvalOutcome :=
  match fuel with
  | 0 => .outOfFuel
  | fuel+1 =>
    match ss with
    | [] => .ok res env
    | s :: ss =>
      match execStmt fuel s env with
      | .ok r e1 => execStmts fuel ss r e1
      | other => other
termination_by structural fuel

/-- `WhileStatement::execute`'s loop: re-evaluate the condition, run the body
while truthy, result is the last body result (or the accumulated `res`). -/
def whileLoop (fuel : Nat) (condition : Expr) (body : Stmt) (res : Value) (env : Environment) : EvalOutcome :=
  match fuel with
  | 0 => .outOfFuel
  | fuel+1 =>
    match evalExpr fuel condition env with
    | .ok c e1 =>
      if c.isTruthy then
        match execStmt fuel body e1 with
        | .ok r e2 => whileLoop fuel condition body r e2
        | other => other
      else .ok res e1
    | other => other
termination_by structural fuel

/-- `Function::call` from `src/common/function.rs`: push a frame, reject on
arity mismatch (the pushed frame is not popped on that path), else bind the
parameters positionally and execute the body, popping the frame afterwards
(also when the body errs). -/
def callFunction (fuel : Nat) (f : Func) (args : List Value) (env : Environment) : EvalOutcome :=
  match fuel with
  | 0 => .outOfFuel
  | fuel+1 =>
    let env1 := env.push
    if f.parameters.length ≠ args.length then
      .err ⟨"Expected " ++ toString f.parameters.length ++ " arguments, found " ++
             toString args.length ++ ", at line " ++ toString f.name.line⟩ env1
    else
      match execStmt fuel f.body (bindParams f.parameters args env1) with
      | .ok v e2 => .ok v e2.pop
      | .err er e2 => .err er e2.pop
      | other => other
termination_by structural fuel

end

/-! ### Parser (`src/parser/mod.rs`)

The `Parser` struct holds the peekable token stream, the last-consumed token
(`actual`) and the resolver; parse methods mutate it and return
`ParseResult<T>`.  Here each method takes and returns the state explicitly;
`panicked` models the source's `unwrap()`s and `outOfFuel` the recursion
fuel. -/

/-- `impl Display for TokenType` from `src/common/token.rs`. -/
def ttToString : TokenType → String
  | .LeftParentheses => "(" | .RightParentheses => ")"
  | .LeftBrace => "\x7b" | .RightBrace => "\x7d"
  | .LeftBracket => "[" | .RightBracket => "]"
  | .Comma => "," | .Dot => "." | .QuestionMark => "?" | .Colon => ":"
  | .Semicolon => ";"
  | .Plus => "+" | .PlusEqual => "+=" | .Minus => "-" | .MinusEqual => "-="
  | .Star => "*" | .StarEqual => "*=" | .Slash => "/" | .SlashEqual => "/="
  | .Bang => "!" | .BangEqual => "!=" | .Equal => "=" | .EqualEqual => "=="
  | .Greater => ">" | .GreaterEqual => ">=" | .Less => "<" | .LessEqual => "<="
  | .Number => "Number" | .String => "String" | .Identifier => "Identifier"
  | .And => "&" | .Or => "|"
  | .Function => "Function" | .Class => "Class" | .Interface => "Interface"
  | .Implements => "Implements" | .If => "If" | .Else => "Else"
  | .Bool => "Bool" | .True => "True" | .False => "False" | .Null => "Null"
  | .While => "While" | .For => "For" | .Return => "Return"
  | .Break => "Break" | .Continue => "Continue"
  | .Print => "Print" | .Println => "Println" | .SelfTok => "Self"
  | .Let => "Let" | .Const => "Const" | .Error => "Error" | .Newline => "Newline"

/-- `Expression::is_identifier`: `Some` only for the `Identifier` variant. -/
def exprIsIdentifier : Expr → Option Token
  | .identifier t => some t
  | _ => none

/-- The parser state: `scanner`, `actual`, `resolver` of the `Parser` struct. -/
structure PState where
  scanner : List Token
  actual : Option Token
  resolver : Resolver

/-- `Parser::peek`. -/
def PState.peek (st : PState) : Option Token := st.scanner.head?

/-- `Parser::next` with the result discarded: advance, recording `actual`. -/
def PState.adv (st : PState) : PState :=
  match st.scanner with
  | [] => ⟨[], none, st.resolver⟩
  | t :: rest => ⟨rest, some t, st.resolver⟩

/-- `Parser::begin_scope`. -/
def PState.beginScope (st : PState) : PState :=
  ⟨st.scanner, st.actual, st.resolver.push⟩

/-- `Parser::end_scope`. -/
def PState.endScope (st : PState) : PState :=
  ⟨st.scanner, st.actual, st.resolver.pop⟩

/-- Outcome of a parse method. -/
inductive POut (α : Type) where
  | ok : α → PState → POut α
  | error : ParseError → PState → POut α
  | panicked : POut α
  | outOfFuel : POut α

/-- `Parser::consume`: peek; on a token-type match consume and return the
token, on a mismatch report the expected type and the previously consumed
token (`self.actual.clone().unwrap()` — a panic when nothing was consumed
yet), on an exhausted stream report unexpected EOF. -/
def consume (ttype : TokenType) (st : PState) : POut Token :=
  match st.scanner with
  | t :: rest =>
    if t.tokenType = ttype then .ok t ⟨rest, some t, st.resolver⟩
    else
      match st.actual with
      | some prev => .error (.single (.missingToken ttype prev)) st
      | none => .panicked
  | [] => .error (.single .unexpectedEof) st

/-- The statement-start token set of `Parser::synchronize`. -/
def isSyncStart : TokenType → Bool
  | .Class | .Function | .Let | .Const | .If | .While | .Print | .Return
  | .LeftBrace => true
  | _ => false

/-- The token-skipping loop of `Parser::synchronize`. -/
def syncLoop (resolver : Resolver) : List Token → Option Token → PState
  | [], actual => ⟨[], actual, resolver⟩
  | t :: rest, actual =>
    if isSyncStart t.tokenType then ⟨t :: rest, actual, resolver⟩
    else syncLoop resolver rest (some t)

/-- `Parser::synchronize`: discard tokens up to (not including) the next
statement-start keyword, or to EOF. -/
def synchronize (st : PState) : PState :=
  syncLoop st.resolver st.scanner st.actual

mutual

/-- `Parser::program`: parse statements to EOF, recovering from each
statement's parse error via `synchronize` and aggregating the errors. -/
def programP (fuel : Nat) (st : PState) : POut (List Stmt) :=
  match fuel with
  | 0 => .outOfFuel
  | fuel+1 => programLoop fuel [] [] st

/-- The statement loop of `Parser::program` with its two accumulators. -/
def programLoop (fuel : Nat) (statements : List Stmt) (errors : List ParseError)
    (st : PState) : POut (List Stmt) :=
  match fuel with
  | 0 => .outOfFuel
  | fuel+1 =>
    match st.peek with
    | none =>
      if errors.isEmpty then .ok statements st
      else .error (.multiple errors) st
    | some _ =>
      match statementP fuel st with
      | .ok s st1 => programLoop fuel (statements ++ [s]) errors st1
      | .error (.single er) st1 =>
        programLoop fuel statements (errors ++ [.single er]) (synchronize st1)
      | .error (.multiple errs) st1 =>
        programLoop fuel statements (errors ++ errs) (synchronize st1)
      | .panicked => .panicked
      | .outOfFuel => .outOfFuel
termination_by structural fuel

/-- `Parser::statement`: dispatch on the peeked token type. -/
def statementP (fuel : Nat) (st : PState) : POut Stmt :=
  match fuel with
  | 0 => .outOfFuel
  | fuel+1 =>
    match st.peek with
    | none => .error (.single .unexpectedEof) st
    | some t =>
      match t.tokenType with
      | .LeftBrace => blockP fuel st.adv
      | .Let => variableDeclarationP fuel st
      | .Const => variableDeclarationP fuel st
      | .Function => functionStatementP fuel st.adv
      | .Print => printStatementP fuel st
      | .Println => printStatementP fuel st
      | .If => ifStatementP fuel st.adv
      | .While => whileStatementP fuel st.adv
      | .Return => returnStatementP fuel st.adv
      | _ => expressionStatementP fuel st
termination_by structural fuel

/-- `Parser::block` (entered with `{` already consumed): push a resolver
scope, then loop statements until `}` (consuming it and popping the scope) or
EOF (leaving the scope pushed), recovering and aggregating errors as
`program` does. -/
def blockP (fuel : Nat) (st : PState) : POut Stmt :=
  match fuel with
  | 0 => .outOfFuel
  | fuel+1 => blockLoop fuel [] [] st.beginScope
termination_by structural fuel

/-- The statement loop of `Parser::block`. -/
def blockLoop (fuel : Nat) (statements : List Stmt) (errors : List ParseError)
    (st : PState) : POut Stmt :=
  match fuel with
  | 0 => .outOfFuel
  | fuel+1 =>
    match st.peek with
    | none =>
      if errors.isEmpty then .ok (.block statements) st
      else .error (.multiple errors) st
    | some t =>
      if t.tokenType = .RightBrace then
        let st1 := st.adv.endScope
        if errors.isEmpty then .ok (.block statements) st1
        else .error (.multiple errors) st1
      else
        match statementP fuel st with
        | .ok s st1 => blockLoop fuel (statements ++ [s]) errors st1
        | .error (.single er) st1 =>
          blockLoop fuel statements (errors ++ [.single er]) (synchronize st1)
        | .error (.multiple errs) st1 =>
          blockLoop fuel statements (errors ++ errs) (synchronize st1)
        | .panicked => .panicked
        | .outOfFuel => .outOfFuel
termination_by structural fuel

/-- `Parser::variable_declaration`: `let`/`const`, identifier, optional
initializer; the resolver `declare` happens after the initializer has been
parsed. -/
def variableDeclarationP (fuel : Nat) (st : PState) : POut Stmt :=
  match fuel with
  | 0 => .outOfFuel
  | fuel+1 =>
    let mutable := match st.peek with
      | some t => t.tokenType = TokenType.Let
      | none => false
    let st1 := st.adv
    match consume .Identifier st1 with
    | .ok identifier st2 =>
      match st2.peek with
      | some t =>
        if t.tokenType = .Equal then
          match expressionP fuel st2.adv with
          | .ok init st3 =>
            match st3.resolver.declare identifier mutable true with
            | (scope, r1) =>
              .ok (.variableDeclaration mutable identifier (some init) scope)
                ⟨st3.scanner, st3.actual, r1⟩
          | .error e st3 => .error e st3
          | .panicked => .panicked
          | .outOfFuel => .outOfFuel
        else
          match st2.resolver.declare identifier mutable false with
          | (scope, r1) =>
            .ok (.variableDeclaration mutable identifier none scope)
              ⟨st2.scanner, st2.actual, r1⟩
      | none =>
        match st2.resolver.declare identifier mutable false with
        | (scope, r1) =>
          .ok (.variableDeclaration mutable identifier none scope)
            ⟨st2.scanner, st2.actual, r1⟩
    | .error e st2 => .error e st2
    | .panicked => .panicked
    | .outOfFuel => .outOfFuel

/-- `Parser::function_statement` (entered with `function` consumed): name,
declared immutable and defined; parameter scope pushed before the parameter
list, each parameter declared mutable and defined; body block; scope popped
after the body. -/
def functionStatementP (fuel : Nat) (st : PState) : POut Stmt :=
  match fuel with
  | 0 => .outOfFuel
  | fuel+1 =>
    match consume .Identifier st with
    | .ok name st1 =>
      match st1.resolver.declare name false true with
      | (_, r1) =>
        let st2 : PState := ⟨st1.scanner, st1.actual, r1⟩
        match consume .LeftParentheses st2 with
        | .ok _ st3 =>
          match parseParams fuel st3.beginScope with
          | .ok parameters st5 =>
            let r2 := parameters.foldl (fun r p => (r.declare p true true).2) st5.resolver
            let st6 : PState := ⟨st5.scanner, st5.actual, r2⟩
            match consume .RightParentheses st6 with
            | .ok _ st7 =>
              match consume .LeftBrace st7 with
              | .ok _ st8 =>
                match blockP fuel st8 with
                | .ok body st9 =>
                  .ok (.functionDeclaration (.mk name parameters body)) st9.endScope
                | .error e st9 => .error e st9
                | .panicked => .panicked
                | .outOfFuel => .outOfFuel
              | .error e st8 => .error e st8
              | .panicked => .panicked
              | .outOfFuel => .outOfFuel
            | .error e st7 => .error e st7
            | .panicked => .panicked
            | .outOfFuel => .outOfFuel
          | .error e st5 => .error e st5
          | .panicked => .panicked
          | .outOfFuel => .outOfFuel
        | .error e st3 => .error e st3
        | .panicked => .panicked
        | .outOfFuel => .outOfFuel
    | .error e st1 => .error e st1
    | .panicked => .panicked
    | .outOfFuel => .outOfFuel
termination_by structural fuel

/-- The parameter list of `Parser::function_statement` (no trailing comma;
empty list when `)` is peeked). -/
def parseParams (fuel : Nat) (st : PState) : POut (List Token) :=
  match fuel with
  | 0 => .outOfFuel
  | fuel+1 =>
    match st.peek with
    | some t =>
      if t.tokenType = .RightParentheses then .ok [] st
      else
        match consume .Identifier st with
        | .ok p st1 => paramsLoop fuel [p] st1
        | .error e st1 => .error e st1
        | .panicked => .panicked
        | .outOfFuel => .outOfFuel
    | none =>
      match consume .Identifier st with
      | .ok p st1 => paramsLoop fuel [p] st1
      | .error e st1 => .error e st1
      | .panicked => .panicked
      | .outOfFuel => .outOfFuel

/-- The `while peek is Comma` part of the parameter list. -/
def paramsLoop (fuel : Nat) (acc : List Token) (st : PState) : POut (List Token) :=
  match fuel with
  | 0 => .outOfFuel
  | fuel+1 =>
    match st.peek with
    | some t =>
      if t.tokenType = .Comma then
        match consume .Identifier st.adv with
        | .ok p st1 => paramsLoop fuel (acc ++ [p]) st1
        | .error e st1 => .error e st1
        | .panicked => .panicked
        | .outOfFuel => .outOfFuel
      else .ok acc st
    | none => .ok acc st
termination_by structural fuel

/-- `Parser::expression_statement`. -/
def expressionStatementP (fuel : Nat) (st : PState) : POut Stmt :=
  match fuel with
  | 0 => .outOfFuel
  | fuel+1 =>
    match expressionP fuel st with
    | .ok e st1 => .ok (.expressionStatement e) st1
    | .error e st1 => .error e st1
    | .panicked => .panicked
    | .outOfFuel => .outOfFuel

/-- `Parser::print_statement` (`print` vs `println` still peeked). -/
def printStatementP (fuel : Nat) (st : PState) : POut Stmt :=
  match fuel with
  | 0 => .outOfFuel
  | fuel+1 =>
    let newLine := match st.peek with
      | some t => t.tokenType = TokenType.Println
      | none => false
    match expressionP fuel st.adv with
    | .ok e st1 => .ok (.printStatement e newLine) st1
    | .error e st1 => .error e st1
    | .panicked => .panicked
    | .outOfFuel => .outOfFuel

/-- `Parser::if_statement` (entered with `if` consumed; the parentheses come
from ordinary expression grouping). -/
def ifStatementP (fuel : Nat) (st : PState) : POut Stmt :=
  match fuel with
  | 0 => .outOfFuel
  | fuel+1 =>
    match expressionP fuel st with
    | .ok condition st1 =>
      match statementP fuel st1 with
      | .ok thenBranch st2 =>
        match st2.peek with
        | some t =>
          if t.tokenType = .Else then
            match statementP fuel st2.adv with
            | .ok elseBranch st3 =>
              .ok (.ifStatement condition thenBranch (some elseBranch)) st3
            | .error e st3 => .error e st3
            | .panicked => .panicked
            | .outOfFuel => .outOfFuel
          else .ok (.ifStatement condition thenBranch none) st2
        | none => .ok (.ifStatement condition thenBranch none) st2
      | .error e st2 => .error e st2
      | .panicked => .panicked
      | .outOfFuel => .outOfFuel
    | .error e st1 => .error e st1
    | .panicked => .panicked
    | .outOfFuel => .outOfFuel
termination_by structural fuel

/-- `Parser::while_statement` (entered with `while` consumed). -/
def whileStatementP (fuel : Nat) (st : PState) : POut Stmt :=
  match fuel with
  | 0 => .outOfFuel
  | fuel+1 =>
    match expressionP fuel st with
    | .ok condition st1 =>
      match statementP fuel st1 with
      | .ok body st2 => .ok (.whileStatement condition body) st2
      | .error e st2 => .error e st2
      | .panicked => .panicked
      | .outOfFuel => .outOfFuel
    | .error e st1 => .error e st1
    | .panicked => .panicked
    | .outOfFuel => .outOfFuel
termination_by structural fuel

/-- `Parser::return_statement` (entered with `return` consumed): a `null`
token is consumed and leaves no value expression. -/
def returnStatementP (fuel : Nat) (st : PState) : POut Stmt :=
  match fuel with
  | 0 => .outOfFuel
  | fuel+1 =>
    match st.peek with
    | some t =>
      if t.tokenType = .Null then .ok (.returnStatement none) st.adv
      else
        match expressionP fuel st with
        | .ok e st1 => .ok (.returnStatement (some e)) st1
        | .error e st1 => .error e st1
        | .panicked => .panicked
        | .outOfFuel => .outOfFuel
    | none =>
      match expressionP fuel st with
      | .ok e st1 => .ok (.returnStatement (some e)) st1
      | .error e st1 => .error e st1
      | .panicked => .panicked
      | .outOfFuel => .outOfFuel

/-- `Parser::expression`. -/
def expressionP (fuel : Nat) (st : PState) : POut Expr :=
  match fuel with
  | 0 => .outOfFuel
  | fuel+1 => assignmentExpressionP fuel st
termination_by structural fuel

/-- `Parser::assignment_expression`: on an assignment operator the left side
must satisfy `is_identifier`; the resolver `define` computes the scope index
(and reports immutable/undeclared names); right-associative recursion. -/
def assignmentExpressionP (fuel : Nat) (st : PState) : POut Expr :=
  match fuel with
  | 0 => .outOfFuel
  | fuel+1 =>
    match conditionalExpressionP fuel st with
    | .ok expression st1 =>
      match st1.peek with
      | some t =>
        match t.tokenType with
        | .Equal | .PlusEqual | .MinusEqual | .StarEqual | .SlashEqual =>
          match exprIsIdentifier expression with
          | some identifier =>
            match st1.resolver.define identifier with
            | .ok scope =>
              match st1.scanner with
              | op :: rest =>
                match assignmentExpressionP fuel ⟨rest, some op, st1.resolver⟩ with
                | .ok value st3 =>
                  .ok (.assignment identifier op.tokenType value scope) st3
                | .error e st3 => .error e st3
                | .panicked => .panicked
                | .outOfFuel => .outOfFuel
              | [] => .panicked
            | .error e => .error e st1
          | none =>
            match st1.scanner with
            | tk :: rest =>
              .error (.single (.message
                ("Expected identifier before " ++ ttToString tk.tokenType ++
                 " at line " ++ toString tk.line)))
                ⟨rest, some tk, st1.resolver⟩
            | [] => .panicked
        | _ => .ok expression st1
      | none => .ok expression st1
    | .error e st1 => .error e st1
    | .panicked => .panicked
    | .outOfFuel => .outOfFuel
termination_by structural fuel

/-- `Parser::conditional_expression` (right-associative ternary). -/
def conditionalExpressionP (fuel : Nat) (st : PState) : POut Expr :=
  match fuel with
  | 0 => .outOfFuel
  | fuel+1 =>
    match logicalOrExpressionP fuel st with
    | .ok expression st1 =>
      match st1.peek with
      | some t =>
        if t.tokenType = .QuestionMark then
          match expressionP fuel st1.adv with
          | .ok thenBranch st2 =>
            match consume .Colon st2 with
            | .ok _ st3 =>
              match conditionalExpressionP fuel st3 with
              | .ok elseBranch st4 =>
                .ok (.conditional expression thenBranch elseBranch) st4
              | .error e st4 => .error e st4
              | .panicked => .panicked
              | .outOfFuel => .outOfFuel
            | .error e st3 => .error e st3
            | .panicked => .panicked
            | .outOfFuel => .outOfFuel
          | .error e st2 => .error e st2
          | .panicked => .panicked
          | .outOfFuel => .outOfFuel
        else .ok expression st1
      | none => .ok expression st1
    | .error e st1 => .error e st1
    | .panicked => .panicked
    | .outOfFuel => .outOfFuel
termination_by structural fuel

/-- `Parser::logical_or_expression`. -/
def logicalOrExpressionP (fuel : Nat) (st : PState) : POut Expr :=
  match fuel with
  | 0 => .outOfFuel
  | fuel+1 =>
    match logicalAndExpressionP fuel st with
    | .ok expression st1 => orLoop fuel expression st1
    | .error e st1 => .error e st1
    | .panicked => .panicked
    | .outOfFuel => .outOfFuel
termination_by structural fuel

/-- The `while peek is Or` loop. -/
def orLoop (fuel : Nat) (expression : Expr) (st : PState) : POut Expr :=
  match fuel with
  | 0 => .outOfFuel
  | fuel+1 =>
    match st.scanner with
    | t :: rest =>
      if t.tokenType = .Or then
        match logicalAndExpressionP fuel ⟨rest, some t, st.resolver⟩ with
        | .ok right st1 => orLoop fuel (.binary expression t right) st1
        | .error e st1 => .error e st1
        | .panicked => .panicked
        | .outOfFuel => .outOfFuel
      else .ok expression st
    | [] => .ok expression st
termination_by structural fuel

/-- `Parser::logical_and_expression`. -/
def logicalAndExpressionP (fuel : Nat) (st : PState) : POut Expr :=
  match fuel with
  | 0 => .outOfFuel
  | fuel+1 =>
    match equalityExpressionP fuel st with
    | .ok expression st1 => andLoop fuel expression st1
    | .error e st1 => .error e st1
    | .panicked => .panicked
    | .outOfFuel => .outOfFuel
termination_by structural fuel

/-- The `while peek is And` loop. -/
def andLoop (fuel : Nat) (expression : Expr) (st : PState) : POut Expr :=
  match fuel with
  | 0 => .outOfFuel
  | fuel+1 =>
    match st.scanner with
    | t :: rest =>
      if t.tokenType = .And then
        match equalityExpressionP fuel ⟨rest, some t, st.resolver⟩ with
        | .ok right st1 => andLoop fuel (.binary expression t right) st1
        | .error e st1 => .error e st1
        | .panicked => .panicked
        | .outOfFuel => .outOfFuel
      else .ok expression st
    | [] => .ok expression st
termination_by structural fuel

/-- `Parser::equality_expression`. -/
def equalityExpressionP (fuel : Nat) (st : PState) : POut Expr :=
  match fuel with
  | 0 => .outOfFuel
  | fuel+1 =>
    match relationalExpressionP fuel st with
    | .ok expression st1 => equalityLoop fuel expression st1
    | .error e st1 => .error e st1
    | .panicked => .panicked
    | .outOfFuel => .outOfFuel
termination_by structural fuel

/-- The `==`/`!=` loop. -/
def equalityLoop (fuel : Nat) (expression : Expr) (st : PState) : POut Expr :=
  match fuel with
  | 0 => .outOfFuel
  | fuel+1 =>
    match st.scanner with
    | t :: rest =>
      match t.tokenType with
      | .EqualEqual | .BangEqual =>
        match relationalExpressionP fuel ⟨rest, some t, st.resolver⟩ with
        | .ok right st1 => equalityLoop fuel (.binary expression t right) st1
        | .error e st1 => .error e st1
        | .panicked => .panicked
        | .outOfFuel => .outOfFuel
      | _ => .ok expression st
    | [] => .ok expression st
termination_by structural fuel

/-- `Parser::relational_expression`. -/
def relationalExpressionP (fuel : Nat) (st : PState) : POut Expr :=
  match fuel with
  | 0 => .outOfFuel
  | fuel+1 =>
    match additiveExpressionP fuel st with
    | .ok expression st1 => relationalLoop fuel expression st1
    | .error e st1 => .error e st1
    | .panicked => .panicked
    | .outOfFuel => .outOfFuel
termination_by structural fuel

/-- The `<`/`<=`/`>`/`>=` loop. -/
def relationalLoop (fuel : Nat) (expression : Expr) (st : PState) : POut Expr :=
  match fuel with
  | 0 => .outOfFuel
  | fuel+1 =>
    match st.scanner with
    | t :: rest =>
      match t.tokenType with
      | .Less | .LessEqual | .Greater | .GreaterEqual =>
        match additiveExpressionP fuel ⟨rest, some t, st.resolver⟩ with
        | .ok right st1 => relationalLoop fuel (.binary expression t right) st1
        | .error e st1 => .error e st1
        | .panicked => .panicked
        | .outOfFuel => .outOfFuel
      | _ => .ok expression st
    | [] => .ok expression st
termination_by structural fuel

/-- `Parser::additive_expression`. -/
def additiveExpressionP (fuel : Nat) (st : PState) : POut Expr :=
  match fuel with
  | 0 => .outOfFuel
  | fuel+1 =>
    match multiplicativeExpressionP fuel st with
    | .ok expression st1 => additiveLoop fuel expression st1
    | .error e st1 => .error e st1
    | .panicked => .panicked
    | .outOfFuel => .outOfFuel
termination_by structural fuel

/-- The `+`/`-` loop. -/
def additiveLoop (fuel : Nat) (expression : Expr) (st : PState) : POut Expr :=
  match fuel with
  | 0 => .outOfFuel
  | fuel+1 =>
    match st.scanner with
    | t :: rest =>
      match t.tokenType with
      | .Plus | .Minus =>
        match multiplicativeExpressionP fuel ⟨rest, some t, st.resolver⟩ with
        | .ok right st1 => additiveLoop fuel (.binary expression t right) st1
        | .error e st1 => .error e st1
        | .panicked => .panicked
        | .outOfFuel => .outOfFuel
      | _ => .ok expression st
    | [] => .ok expression st
termination_by structural fuel

/-- `Parser::multiplicative_expression`. -/
def multiplicativeExpressionP (fuel : Nat) (st : PState) : POut Expr :=
  match fuel with
  | 0 => .outOfFuel
  | fuel+1 =>
    match unaryExpressionP fuel st with
    | .ok expression st1 => multiplicativeLoop fuel expression st1
    | .error e st1 => .error e st1
    | .panicked => .panicked
    | .outOfFuel => .outOfFuel
termination_by structural fuel

/-- The `*`/`/` loop. -/
def multiplicativeLoop (fuel : Nat) (expression : Expr) (st : PState) : POut Expr :=
  match fuel with
  | 0 => .outOfFuel
  | fuel+1 =>
    match st.scanner with
    | t :: rest =>
      match t.tokenType with
      | .Star | .Slash =>
        match unaryExpressionP fuel ⟨rest, some t, st.resolver⟩ with
        | .ok right st1 => multiplicativeLoop fuel (.binary expression t right) st1
        | .error e st1 => .error e st1
        | .panicked => .panicked
        | .outOfFuel => .outOfFuel
      | _ => .ok expression st
    | [] => .ok expression st
termination_by structural fuel

/-- `Parser::unary_expression`. -/
def unaryExpressionP (fuel : Nat) (st : PState) : POut Expr :=
  match fuel with
  | 0 => .outOfFuel
  | fuel+1 =>
    match st.scanner with
    | t :: rest =>
      match t.tokenType with
      | .Minus | .Bang =>
        match unaryExpressionP fuel ⟨rest, some t, st.resolver⟩ with
        | .ok right st1 => .ok (.unary t right) st1
        | .error e st1 => .error e st1
        | .panicked => .panicked
        | .outOfFuel => .outOfFuel
      | _ => postfixExpressionP fuel st
    | [] => postfixExpressionP fuel st
termination_by structural fuel

/-- `Parser::postfix_expression`. -/
def postfixExpressionP (fuel : Nat) (st : PState) : POut Expr :=
  match fuel with
  | 0 => .outOfFuel
  | fuel+1 =>
    match primaryExpressionP fuel st with
    | .ok expression st1 => postfixLoopP fuel expression st1
    | .error e st1 => .error e st1
    | .panicked => .panicked
    | .outOfFuel => .outOfFuel
termination_by structural fuel

/-- The index/dot/call loop of `Parser::postfix_expression`. -/
def postfixLoopP (fuel : Nat) (expression : Expr) (st : PState) : POut Expr :=
  match fuel with
  | 0 => .outOfFuel
  | fuel+1 =>
    match st.scanner with
    | t :: _ =>
      match t.tokenType with
      | .LeftBracket =>
        match expressionP fuel st.adv with
        | .ok index st2 =>
          match consume .RightBracket st2 with
          | .ok _ st3 =>
            postfixLoopP fuel (.postfixExpr expression (.index index)) st3
          | .error e st3 => .error e st3
          | .panicked => .panicked
          | .outOfFuel => .outOfFuel
        | .error e st2 => .error e st2
        | .panicked => .panicked
        | .outOfFuel => .outOfFuel
      | .Dot =>
        match consume .Identifier st.adv with
        | .ok name st2 =>
          postfixLoopP fuel (.postfixExpr expression (.dot (valueToString name.value))) st2
        | .error e st2 => .error e st2
        | .panicked => .panicked
        | .outOfFuel => .outOfFuel
      | .LeftParentheses =>
        match parseArgs fuel st.adv with
        | .ok arguments st2 =>
          match consume .RightParentheses st2 with
          | .ok _ st3 =>
            postfixLoopP fuel (.postfixExpr expression (.call arguments)) st3
          | .error e st3 => .error e st3
          | .panicked => .panicked
          | .outOfFuel => .outOfFuel
        | .error e st2 => .error e st2
        | .panicked => .panicked
        | .outOfFuel => .outOfFuel
      | _ => .ok expression st
    | [] => .ok expression st
termination_by structural fuel

/-- The argument list of a call (empty when `)` is peeked; no trailing
comma). -/
def parseArgs (fuel : Nat) (st : PState) : POut (List Expr) :=
  match fuel with
  | 0 => .outOfFuel
  | fuel+1 =>
    match st.peek with
    | some t =>
      if t.tokenType = .RightParentheses then .ok [] st
      else
        match expressionP fuel st with
        | .ok e st1 => argsLoop fuel [e] st1
        | .error e st1 => .error e st1
        | .panicked => .panicked
        | .outOfFuel => .outOfFuel
    | none =>
      match expressionP fuel st with
      | .ok e st1 => argsLoop fuel [e] st1
      | .error e st1 => .error e st1
      | .panicked => .panicked
      | .outOfFuel => .outOfFuel
termination_by structural fuel

/-- The `while peek is Comma` part of an argument list. -/
def argsLoop (fuel : Nat) (acc : List Expr) (st : PState) : POut (List Expr) :=
  match fuel with
  | 0 => .outOfFuel
  | fuel+1 =>
    match st.peek with
    | some t =>
      if t.tokenType = .Comma then
        match expressionP fuel st.adv with
        | .ok e st1 => argsLoop fuel (acc ++ [e]) st1
        | .error e st1 => .error e st1
        | .panicked => .panicked
        | .outOfFuel => .outOfFuel
      else .ok acc st
    | none => .ok acc st
termination_by structural fuel

/-- `Parser::primary_expression`: consume one token; identifiers are
resolved (`Resolver::resolve`), literal tokens become `Literal` expressions
carrying the token's value (note `null` is not accepted here), `(` groups,
`[` starts an array literal, anything else is a parse error showing the
token's `Debug` value. -/
def primaryExpressionP (fuel : Nat) (st : PState) : POut Expr :=
  match fuel with
  | 0 => .outOfFuel
  | fuel+1 =>
    match st.scanner with
    | [] => .error (.single .unexpectedEof) ⟨[], none, st.resolver⟩
    | tk :: rest =>
      let st1 : PState := ⟨rest, some tk, st.resolver⟩
      match tk.tokenType with
      | .Identifier =>
        match st1.resolver.resolve tk with
        | .ok _ => .ok (.identifier tk) st1
        | .error e => .error e st1
      | .Number => .ok (.literal tk.value) st1
      | .String => .ok (.literal tk.value) st1
      | .True => .ok (.literal tk.value) st1
      | .False => .ok (.literal tk.value) st1
      | .LeftParentheses =>
        match expressionP fuel st1 with
        | .ok e st2 =>
          match consume .RightParentheses st2 with
          | .ok _ st3 => .ok e st3
          | .error er st3 => .error er st3
          | .panicked => .panicked
          | .outOfFuel => .outOfFuel
        | .error e st2 => .error e st2
        | .panicked => .panicked
        | .outOfFuel => .outOfFuel
      | .LeftBracket =>
        match parseElements fuel st1 with
        | .ok elements st2 =>
          match consume .RightBracket st2 with
          | .ok _ st3 => .ok (.arrayLiteral elements) st3
          | .error er st3 => .error er st3
          | .panicked => .panicked
          | .outOfFuel => .outOfFuel
        | .error e st2 => .error e st2
        | .panicked => .panicked
        | .outOfFuel => .outOfFuel
      | _ =>
        .error (.single (.message
          ("Expected identifier, number, string, true, false or \x27(\x27, found: " ++
           valueDebugToString tk.value ++ " at line " ++ toString tk.line))) st1
termination_by structural fuel

/-- The element list of an array literal (empty when `]` is peeked). -/
def parseElements (fuel : Nat) (st : PState) : POut (List Expr) :=
  match fuel with
  | 0 => .outOfFuel
  | fuel+1 =>
    match st.peek with
    | some t =>
      if t.tokenType = .RightBracket then .ok [] st
      else
        match expressionP fuel st with
        | .ok e st1 => elementsLoop fuel [e] st1
        | .error e st1 => .error e st1
        | .panicked => .panicked
        | .outOfFuel => .outOfFuel
    | none =>
      match expressionP fuel st with
      | .ok e st1 => elementsLoop fuel [e] st1
      | .error e st1 => .error e st1
      | .panicked => .panicked
      | .outOfFuel => .outOfFuel
termination_by structural fuel

/-- The `while peek is Comma` part of an array literal. -/
def elementsLoop (fuel : Nat) (acc : List Expr) (st : PState) : POut (List Expr) :=
  match fuel with
  | 0 => .outOfFuel
  | fuel+1 =>
    match st.peek with
    | some t =>
      if t.tokenType = .Comma then
        match expressionP fuel st.adv with
        | .ok e st1 => elementsLoop fuel (acc ++ [e]) st1
        | .error e st1 => .error e st1
        | .panicked => .panicked
        | .outOfFuel => .outOfFuel
      else .ok acc st
    | none => .ok acc st
termination_by structural fuel

end

/-- `parser::parse`: run `program` on a fresh parser state. -/
def parseTokens (fuel : Nat) (tokens : List Token) : POut (List Stmt) :=
  programP fuel ⟨tokens, none, Resolver.new⟩

/-- Outcome of `Interpreter::interpret`: the source returns
`GenericResult<()>` while the interpreter keeps its `environment` field, so
the final environment is carried on the `ok` and `runtimeError` outcomes. -/
inductive InterpOutcome where
  | ok : Environment → InterpOutcome
  | parseError : ParseError → InterpOutcome
  | runtimeError : RuntimeError → Environment → InterpOutcome
  | panicked : String → InterpOutcome
  | outOfFuel : InterpOutcome

/-- The statement loop of `Interpreter::interpret`: execute each parsed
statement in order against the single environment, aborting at the first
runtime error. -/
def interpLoop (fuel : Nat) (stmts : List Stmt) (env : Environment) : InterpOutcome :=
  match stmts with
  | [] => .ok env
  | s :: ss =>
    match execStmt fuel s env with
    | .ok _ e1 => interpLoop fuel ss e1
    | .err er e1 => .runtimeError er e1
    | .panicked m => .panicked m
    | .outOfFuel => .outOfFuel

/-- `Interpreter::interpret` (and the free `interpret`): parse the source,
then execute the statements against a fresh environment; parse errors are
propagated without executing anything. -/
def interpret (fuel : Nat) (tokens : List Token) : InterpOutcome :=
  match parseTokens fuel tokens with
  | .ok stmts _ => interpLoop fuel stmts Environment.new
  | .error e _ => .parseError e
  | .panicked => .panicked "parser panic"
  | .outOfFuel => .outOfFuel

/-! ### Classifiers and concrete fixtures used by the properties below -/

/-- The type tag of a `Value` (the discriminant of the Rust enum). -/
inductive VTag where
  | null | number | string | boolean | array | function
  deriving DecidableEq

/-- Tag extraction. -/
def Value.tag : Value → VTag
  | .Null => .null
  | .Number _ => .number
  | .String _ => .string
  | .Boolean _ => .boolean
  | .Array _ => .array
  | .Function _ => .function

/-- An identifier token, as produced by the lexer (`Value::String` payload). -/
def idT (s : String) (l : Nat) : Token := .mk .Identifier (.String s) l

/-- A keyword/operator token with its lexeme payload. -/
def kwT (tt : TokenType) (s : String) (l : Nat) : Token := .mk tt (.String s) l

/-- A number token. -/
def nT (q : ℚ) (l : Nat) : Token := .mk .Number (.Number q) l

/-- A `true` token (`Value::Boolean(true)` payload). -/
def trueT (l : Nat) : Token := .mk .True (.Boolean true) l

/-- A fresh environment. -/
def env0 : Environment := Environment.new

/-- An environment with a single mutable global `x = 1`. -/
def envX1 : Environment := ⟨[[("x", ⟨true, some (.Number 1)⟩)]]⟩

/-- Tokens of the operators and identifiers used in concrete runs. -/
def andT : Token := kwT .And "&" 1

/-- The `|` token. -/
def orT : Token := kwT .Or "|" 1

/-- The `<` token. -/
def lessT : Token := kwT .Less "<" 1

/-- The `-` token. -/
def minusT : Token := kwT .Minus "-" 1

/-- An `x` identifier token. -/
def xIdT : Token := idT "x" 1

/-- A `y` identifier token. -/
def yIdT : Token := idT "y" 1

/-- Token stream of `let x; x` (a declaration without initializer followed by
a read of the name). -/
def c2tokens : List Token := [kwT .Let "let" 1, idT "x" 1, idT "x" 1]

/-- Token stream of `let x = x` with no enclosing `x`. -/
def c3tokens : List Token :=
  [kwT .Let "let" 1, idT "x" 1, kwT .Equal "=" 1, idT "x" 1]

/-- Token stream of `let x = 1 { let x = x }`: the inner initializer reads
`x` while the inner declaration is not yet declared. -/
def c3okTokens : List Token :=
  [kwT .Let "let" 1, idT "x" 1, kwT .Equal "=" 1, nT 1 1,
   kwT .LeftBrace "\x7b" 2, kwT .Let "let" 2, idT "x" 2, kwT .Equal "=" 2,
   idT "x" 2, kwT .RightBrace "\x7d" 2]

/-- Token stream of
`let x = 1  function f() { x = 99 }  { let x = 2  f() }`:
the assignment inside `f` carries resolver scope index 0 (the global frame),
and at the moment it executes the innermost frame containing `x` is the block
frame holding `x = 2`. -/
def c4tokens : List Token :=
  [kwT .Let "let" 1, idT "x" 1, kwT .Equal "=" 1, nT 1 1,
   kwT .Function "function" 2, idT "f" 2, kwT .LeftParentheses "(" 2,
     kwT .RightParentheses ")" 2, kwT .LeftBrace "\x7b" 2,
     idT "x" 2, kwT .Equal "=" 2, nT 99 2, kwT .RightBrace "\x7d" 2,
   kwT .LeftBrace "\x7b" 3, kwT .Let "let" 3, idT "x" 3, kwT .Equal "=" 3,
     nT 2 3, idT "f" 3, kwT .LeftParentheses "(" 3, kwT .RightParentheses ")" 3,
     kwT .RightBrace "\x7d" 3]

/-- The function record `f` as parsed from `c4tokens`. -/
def fRec : Func :=
  .mk (idT "f" 2) []
    (.block [.expressionStatement (.assignment (idT "x" 2) .Equal
      (.literal (.Number 99)) 0)])

/-- An environment with two frames both holding a mutable `x` (outer 1,
inner 2), as arises from `c4tokens` at the moment `f`'s body runs. -/
def c4envTwo : Environment :=
  ⟨[[("x", ⟨true, some (.Number 1)⟩)], [("x", ⟨true, some (.Number 2)⟩)]]⟩

/-- Token stream of `true - 1` (invalid operand types for `-`). -/
def c5tokens : List Token := [trueT 1, minusT, nT 1 1]

/-- The statement `while (x < 3) { x += 1  return 99 }`. -/
def c6loop : Stmt :=
  .whileStatement (.binary (.identifier xIdT) lessT (.literal (.Number 3)))
    (.block [.expressionStatement (.assignment xIdT .PlusEqual
               (.literal (.Number 1)) 0),
             .returnStatement (some (.literal (.Number 99)))])

/-- An environment with a single mutable global `x = 0`. -/
def c6env : Environment := ⟨[[("x", ⟨true, some (.Number 0)⟩)]]⟩

/-- Token stream of two malformed declarations, `let 5  let 6`, the second
beginning at a statement-start keyword. -/
def c7tokens : List Token :=
  [kwT .Let "let" 1, nT 5 1, kwT .Let "let" 2, nT 6 2]

/-- A two-parameter function `g(a, b)` returning `5`, declared at line 7. -/
def gFunc : Func :=
  .mk (idT "g" 7) [idT "a" 7, idT "b" 7]
    (.returnStatement (some (.literal (.Number 5))))

/-! ## Properties

Helper lemmas first, then one theorem per treated property (with its witness
or counterexample). -/

/-- `Environment::get` over frames that all miss the key reports the
undeclared-variable error. -/
theorem envGetFrames_all_miss (t : Token) : ∀ (fl : List Frame),
    (∀ fr ∈ fl, lookupAL fr t.key = none) →
    envGetFrames fl t = .error (RuntimeError.newUndeclaredVariable t)
  | [], _ => rfl
  | fr :: rest, h => by
    have h1 := h fr (by simp)
    simp only [envGetFrames, h1]
    exact envGetFrames_all_miss t rest (fun f hf => h f (by simp [hf]))

/-- A prefix of frames that all miss the key is skipped by the search. -/
theorem envGetFrames_prefix_miss (t : Token) : ∀ (fl gl : List Frame),
    (∀ fr ∈ fl, lookupAL fr t.key = none) →
    envGetFrames (fl ++ gl) t = envGetFrames gl t
  | [], _, _ => rfl
  | fr :: rest, gl, h => by
    have h1 := h fr (by simp)
    simp only [List.cons_append, envGetFrames, h1]
    exact envGetFrames_prefix_miss t rest gl (fun f hf => h f (by simp [hf]))

/-- Distinct tags are never ordered by `PartialOrd for Value`. -/
theorem valuePartialCmp_tag_ne (v w : Value) (h : v.tag ≠ w.tag) :
    valuePartialCmp v w = none := by
  cases v <;> cases w <;> simp_all [Value.tag, valuePartialCmp]

/-- Claim C1 (amended): `BinaryExpression::evaluate` always evaluates both
operands of `&`/`|` — the right operand's state changes and errors occur even
when the left operand decides the result — and the result value is the
pass-through operand: for `&` the left value if falsy, else the right value;
for `|` the left value if truthy, else the right value. -/
theorem binary_and_or_pass_through (fuel : Nat) (x y : Expr) (t : Token)
    (env e1 : Environment) (vl : Value)
    (hx : evalExpr fuel x env = .ok vl e1) :
    (t.tokenType = .And →
      evalExpr (fuel+1) (.binary x t y) env =
        match evalExpr fuel y e1 with
        | .ok vr e2 => .ok (if vl.isTruthy then vr else vl) e2
        | other => other) ∧
    (t.tokenType = .Or →
      evalExpr (fuel+1) (.binary x t y) env =
        match evalExpr fuel y e1 with
        | .ok vr e2 => .ok (if vl.isTruthy then vl else vr) e2
        | other => other) := by
  constructor <;> intro h <;> simp only [evalExpr, hx, h] <;>
    cases hy : evalExpr fuel y e1 <;> simp [hy] <;> cases vl.isTruthy <;> simp

/-- Witness for C1: `0 & 7` passes the falsy left value `0` through (with the
right operand evaluated). -/
theorem binary_and_or_pass_through_witness :
    evalExpr 2 (.binary (.literal (.Number 0)) andT (.literal (.Number 7))) env0
      = .ok (.Number 0) env0 := by
  have h := (binary_and_or_pass_through 1 (.literal (.Number 0))
    (.literal (.Number 7)) andT env0 env0 (.Number 0) rfl).1 rfl
  rw [h]
  with_unfolding_all rfl

/-- Counterexample to C1 as stated: with a falsy left operand the right
operand IS evaluated — `false & y` with `y` undeclared errs instead of
returning `Boolean(false)`, and `false & (x = 2)` (resp. `1 | (x = 2)`)
performs the assignment side effect of the right operand. -/
theorem binary_and_or_not_short_circuit :
    evalExpr 3 (.binary (.literal (.Boolean false)) andT (.identifier yIdT)) env0
      = .err (RuntimeError.newUndeclaredVariable yIdT) env0 ∧
    evalExpr 3 (.binary (.literal (.Boolean false)) andT
        (.assignment xIdT .Equal (.literal (.Number 2)) 0)) envX1
      = .ok (.Boolean false) ⟨[[("x", ⟨true, some (.Number 2)⟩)]]⟩ ∧
    evalExpr 3 (.binary (.literal (.Number 1)) orT
        (.assignment xIdT .Equal (.literal (.Number 2)) 0)) envX1
      = .ok (.Number 1) ⟨[[("x", ⟨true, some (.Number 2)⟩)]]⟩ := by
  refine ⟨?_, ?_, ?_⟩ <;> with_unfolding_all rfl

/-- Claim C2 (amended): the error kinds.  `Resolver::resolve` fails with the
undeclared-variable parse error when no scope contains the name and with the
uninitialized-read parse error when the innermost scope containing it has
`defined = false`; `Environment::get` fails with `UndeclaredVariable` when no
frame contains the name and with the distinct `UndefinedVariable` when the
innermost frame containing it holds no value. -/
theorem resolver_environment_error_kinds :
    (∀ (r : Resolver) (t : Token), rfindInnermost r.scopes t.key = none →
       r.resolve t = .error (.single (.message
         ("Undeclared variable \x27" ++ valueToString t.value ++
          "\x27 at line " ++ toString t.line ++ ".")))) ∧
    (∀ (r : Resolver) (t : Token) (i : Nat) (m : Bool),
       rfindInnermost r.scopes t.key = some (i, ⟨m, false⟩) →
       r.resolve t = .error (.single (.message
         ("Cannot read uninitialized variable \x27" ++ valueToString t.value ++
          "\x27 at line " ++ toString t.line ++ ".")))) ∧
    (∀ (env : Environment) (t : Token),
       (∀ fr ∈ env.environment, lookupAL fr t.key = none) →
       env.get t = .error (RuntimeError.newUndeclaredVariable t)) ∧
    (∀ (env : Environment) (t : Token) (fr : Frame) (before after : List Frame)
       (m : Bool),
       env.environment = before ++ fr :: after →
       lookupAL fr t.key = some ⟨m, none⟩ →
       (∀ fr2 ∈ after, lookupAL fr2 t.key = none) →
       env.get t = .error (RuntimeError.newUndefinedVariable t)) ∧
    (∀ t : Token,
       RuntimeError.newUndeclaredVariable t ≠ RuntimeError.newUndefinedVariable t) := by
  refine ⟨?_, ?_, ?_, ?_, ?_⟩
  · intro r t h
    simp [Resolver.resolve, h]
  · intro r t i m h
    simp [Resolver.resolve, h]
  · intro env t h
    exact envGetFrames_all_miss t _ (fun f hf => h f (by simpa using hf))
  · intro env t fr before after m he hfr hafter
    unfold Environment.get
    rw [he, List.reverse_append, List.reverse_cons, List.append_assoc,
      envGetFrames_prefix_miss t after.reverse _
        (fun f hf => hafter f (by simpa using hf))]
    simp only [List.singleton_append, envGetFrames, hfr]
  · intro t h
    have hlen := congrArg (fun e => e.message.length) h
    simp only [RuntimeError.newUndeclaredVariable,
      RuntimeError.newUndefinedVariable, String.length_append] at hlen
    have e1 : ("Undeclared variable: ").length = 21 := rfl
    have e2 : ("Undefined variable: ").length = 20 := rfl
    rw [e1, e2] at hlen
    omega

/-- Witness for C2: each conjunct at a concrete resolver/environment. -/
theorem resolver_environment_error_kinds_witness :
    Resolver.resolve ⟨[[]]⟩ xIdT = .error (.single (.message
      ("Undeclared variable \x27" ++ valueToString xIdT.value ++
       "\x27 at line " ++ toString xIdT.line ++ "."))) ∧
    Resolver.resolve ⟨[[("x", ⟨true, false⟩)]]⟩ xIdT = .error (.single (.message
      ("Cannot read uninitialized variable \x27" ++ valueToString xIdT.value ++
       "\x27 at line " ++ toString xIdT.line ++ "."))) ∧
    Environment.get env0 xIdT = .error (RuntimeError.newUndeclaredVariable xIdT) ∧
    Environment.get ⟨[[("x", ⟨true, none⟩)]]⟩ xIdT
      = .error (RuntimeError.newUndefinedVariable xIdT) ∧
    RuntimeError.newUndeclaredVariable xIdT ≠ RuntimeError.newUndefinedVariable xIdT := by
  obtain ⟨h1, h2, h3, h4, h5⟩ := resolver_environment_error_kinds
  refine ⟨h1 ⟨[[]]⟩ xIdT rfl, h2 ⟨[[("x", ⟨true, false⟩)]]⟩ xIdT 0 true rfl,
    h3 env0 xIdT ?_, h4 ⟨[[("x", ⟨true, none⟩)]]⟩ xIdT [("x", ⟨true, none⟩)] [] [] true
      rfl rfl (by simp), h5 xIdT⟩
  intro fr hfr
  simp only [env0, Environment.new, List.mem_singleton] at hfr
  subst hfr
  rfl

/-- Counterexample to C2 as stated: the read of `let x; x` is rejected at
parse time by `Resolver::resolve` (with the uninitialized-read message), so
`interpret` surfaces a parse error and no run-time `UndefinedVariable` error
occurs. -/
theorem uninitialized_read_fails_at_parse_time :
    parseTokens 40 c2tokens
      = .error (.multiple [.single (.message
          "Cannot read uninitialized variable \x27x\x27 at line 1.")])
        ⟨[], some (idT "x" 1), ⟨[[("x", ⟨true, false⟩)]]⟩⟩ ∧
    interpret 40 c2tokens
      = .parseError (.multiple [.single (.message
          "Cannot read uninitialized variable \x27x\x27 at line 1.")]) := by
  constructor <;> with_unfolding_all rfl

/-- Claim C3 (amended): `Parser::variable_declaration` calls the resolver's
`declare` only after the initializer is parsed, so the initializer resolves
against the enclosing scopes only: `let x = x` with no enclosing `x` is
rejected with the undeclared-variable parse error, while with an enclosing
defined `x` the inner `let x = x` parses and the inner declaration receives
the inner scope index 1. -/
theorem declare_after_initializer :
    parseTokens 40 c3tokens
      = .error (.multiple [.single (.message
          "Undeclared variable \x27x\x27 at line 1.")])
        ⟨[], some (idT "x" 1), ⟨[[]]⟩⟩ ∧
    parseTokens 40 c3okTokens
      = .ok [.variableDeclaration true (idT "x" 1) (some (.literal (.Number 1))) 0,
             .block [.variableDeclaration true (idT "x" 2)
                       (some (.identifier (idT "x" 2))) 1]]
          ⟨[], some (kwT .RightBrace "\x7d" 2), ⟨[[("x", ⟨true, true⟩)]]⟩⟩ := by
  constructor <;> with_unfolding_all rfl

/-- Counterexample to C3 as stated: `let x = x` (no enclosing `x`) is NOT
accepted — parsing fails with an undeclared-variable error, because `declare`
runs after the initializer is parsed. -/
theorem self_reference_rejected :
    parseTokens 40 c3tokens
      = .error (.multiple [.single (.message
          "Undeclared variable \x27x\x27 at line 1.")])
        ⟨[], some (idT "x" 1), ⟨[[]]⟩⟩ ∧
    interpret 40 c3tokens
      = .parseError (.multiple [.single (.message
          "Undeclared variable \x27x\x27 at line 1.")]) := by
  constructor <;> with_unfolding_all rfl

/-- Claim C4 (amended): `Environment::assign` accesses the frame at the
resolver-supplied scope index directly (no innermost-first search): on a
mutable hit exactly that frame is updated and every other frame — in
particular any inner shadowing frame — is left unchanged; if the name is
absent from that one frame the assignment fails `UndeclaredVariable`
regardless of other frames. -/
theorem assign_uses_scope_index (env : Environment) (t : Token) (v : Value)
    (index : Nat) (frame : Frame)
    (h1 : env.environment[index]? = some frame) :
    (∀ var2 : Variable, lookupAL frame t.key = some var2 → var2.mutable = true →
       Environment.assign env t v index =
         .ok ⟨env.environment.set index (insertAL frame t.key ⟨true, some v⟩)⟩) ∧
    (lookupAL frame t.key = none →
       Environment.assign env t v index = .err (RuntimeError.newUndeclaredVariable t)) ∧
    (∀ j, j ≠ index →
       (env.environment.set index (insertAL frame t.key ⟨true, some v⟩))[j]? =
         env.environment[j]?) := by
  refine ⟨?_, ?_, ?_⟩
  · intro var2 hl hm
    simp [Environment.assign, h1, hl, hm]
  · intro hl
    simp [Environment.assign, h1, hl]
  · intro j hj
    exact List.getElem?_set_ne (by omega)

/-- Witness for C4: on two frames both holding `x`, `assign` at index 0
updates the bottom frame and leaves the innermost frame untouched. -/
theorem assign_uses_scope_index_witness :
    Environment.assign c4envTwo xIdT (.Number 99) 0
      = .ok ⟨c4envTwo.environment.set 0
              (insertAL [("x", ⟨true, some (.Number 1)⟩)] xIdT.key
                ⟨true, some (.Number 99)⟩)⟩ ∧
    (c4envTwo.environment.set 0
        (insertAL [("x", ⟨true, some (.Number 1)⟩)] xIdT.key
          ⟨true, some (.Number 99)⟩))[1]? = c4envTwo.environment[1]? := by
  have h := assign_uses_scope_index c4envTwo xIdT (.Number 99) 0
    [("x", ⟨true, some (.Number 1)⟩)] rfl
  exact ⟨h.1 ⟨true, some (.Number 1)⟩ rfl rfl, h.2.2 1 (by decide)⟩

/-- Counterexample to C4 as stated: `assign` does not mutate the innermost
frame containing the name.  Directly: with frames `x = 1` (bottom) and
`x = 2` (innermost), `assign` at index 0 rewrites the bottom frame and leaves
the innermost untouched.  End to end: in
`let x = 1  function f() { x = 99 }  { let x = 2  f() }` the assignment
executes while the innermost frame containing `x` holds 2, yet the final
global `x` is 99 (innermost-first search semantics would leave it at 1). -/
theorem assign_not_innermost_search :
    Environment.assign c4envTwo xIdT (.Number 99) 0
      = .ok ⟨[[("x", ⟨true, some (.Number 99)⟩)], [("x", ⟨true, some (.Number 2)⟩)]]⟩ ∧
    interpret 60 c4tokens
      = .ok ⟨[[("x", ⟨true, some (.Number 99)⟩),
               ("f", ⟨false, some (.Function fRec)⟩)]]⟩ := by
  constructor <;> with_unfolding_all rfl

/-- Claim C5 (code bug): the value model returns `Err("Invalid Operands")`
for invalid operand types, but `BinaryExpression::evaluate` `.unwrap()`s that
result, so `true - 1` panics the process instead of surfacing a
`RuntimeError` to the caller of `interpret()`. -/
theorem invalid_operands_panic :
    valueSub (.Boolean true) (.Number 1) = .error ⟨"Invalid Operands"⟩ ∧
    evalExpr 3 (.binary (.literal (.Boolean true)) minusT (.literal (.Number 1))) env0
      = .panicked "Invalid Operands" ∧
    interpret 40 c5tokens = .panicked "Invalid Operands" := by
  refine ⟨rfl, ?_, ?_⟩ <;> with_unfolding_all rfl

/-- Claim C6 (confirmed): `ReturnStatement::execute` merely evaluates its
value (or yields `Null`) as an ordinary statement result — there is no
early-exit signal — so a `return` inside a while body does not abort the
loop: `while (x < 3) { x += 1  return 99 }` from `x = 0` runs all three
iterations, ends with `x = 3`, and the loop's result is the last body
result 99. -/
theorem return_no_early_exit :
    (∀ (fuel : Nat) (e : Expr) (env : Environment),
       execStmt (fuel+1) (.returnStatement (some e)) env = evalExpr fuel e env) ∧
    (∀ (fuel : Nat) (env : Environment),
       execStmt (fuel+1) (.returnStatement none) env = .ok .Null env) ∧
    execStmt 20 c6loop c6env = .ok (.Number 99) ⟨[[("x", ⟨true, some (.Number 3)⟩)]]⟩ := by
  refine ⟨fun _ _ _ => rfl, fun _ _ => rfl, ?_⟩
  with_unfolding_all rfl

/-- Claim C7 (confirmed): when a statement fails with a single parse error,
`Parser::program` records it, synchronizes, and continues; a second failing
statement contributes a second entry, and with the input exhausted the result
is one aggregated `Multiple` error holding both entries in order. -/
theorem program_accumulates_two_errors (fuel : Nat) (st st1 st3 : PState)
    (e1 e2 : SingleErr)
    (h0 : st.peek ≠ none)
    (h1 : statementP (fuel+2) st = .error (.single e1) st1)
    (h2 : (synchronize st1).peek ≠ none)
    (h3 : statementP (fuel+1) (synchronize st1) = .error (.single e2) st3)
    (h4 : (synchronize st3).peek = none) :
    programP (fuel+4) st = .error (.multiple [.single e1, .single e2])
      (synchronize st3) := by
  obtain ⟨t0, hp0⟩ := Option.ne_none_iff_exists'.mp h0
  obtain ⟨t2, hp2⟩ := Option.ne_none_iff_exists'.mp h2
  simp only [programP, programLoop, hp0, h1, hp2, h3, h4]
  simp [programLoop, hp0, h1, hp2, h3, h4]

/-- Witness for C7: `let 5  let 6` — both malformed declarations are
reported in one aggregated error. -/
theorem program_accumulates_two_errors_witness :
    programP 40 ⟨c7tokens, none, Resolver.new⟩
      = .error (.multiple
          [.single (.missingToken .Identifier (kwT .Let "let" 1)),
           .single (.missingToken .Identifier (kwT .Let "let" 2))])
        ⟨[], some (nT 6 2), ⟨[[]]⟩⟩ := by
  have h := program_accumulates_two_errors 36 ⟨c7tokens, none, Resolver.new⟩
    ⟨[nT 5 1, kwT .Let "let" 2, nT 6 2], some (kwT .Let "let" 1), ⟨[[]]⟩⟩
    ⟨[nT 6 2], some (kwT .Let "let" 2), ⟨[[]]⟩⟩
    (.missingToken .Identifier (kwT .Let "let" 1))
    (.missingToken .Identifier (kwT .Let "let" 2))
    (by intro h; exact Option.noConfusion h)
    (by with_unfolding_all rfl)
    (by intro h; exact Option.noConfusion h)
    (by with_unfolding_all rfl)
    rfl
  exact h

/-- Claim C8 (confirmed): `Function::call` rejects an argument count
different from the parameter count with a message stating the expected
count, the found count and the declaration's line; on a matching count it
binds the parameters positionally into the fresh frame and returns the
body's result (popping the frame). -/
theorem call_arity_check (fuel : Nat) (f : Func) (args : List Value)
    (env : Environment) :
    (f.parameters.length ≠ args.length →
       callFunction (fuel+1) f args env =
         .err ⟨"Expected " ++ toString f.parameters.length ++ " arguments, found " ++
               toString args.length ++ ", at line " ++ toString f.name.line⟩
           env.push) ∧
    (f.parameters.length = args.length →
       callFunction (fuel+1) f args env =
         match execStmt fuel f.body (bindParams f.parameters args env.push) with
         | .ok v e2 => .ok v e2.pop
         | .err er e2 => .err er e2.pop
         | other => other) := by
  constructor <;> intro h <;> simp [callFunction, h]

/-- Witness for C8: calling the 2-parameter `g` with one argument fails with
the exact counts and line in the message; with two arguments it returns the
body's result. -/
theorem call_arity_check_witness :
    callFunction 1 gFunc [.Number 1] env0
      = .err ⟨"Expected 2 arguments, found 1, at line 7"⟩ env0.push ∧
    callFunction 3 gFunc [.Number 1, .Number 2] env0
      = .ok (.Number 5) env0 := by
  constructor
  · have h := (call_arity_check 0 gFunc [.Number 1] env0).1 (by decide)
    rw [h]
    with_unfolding_all rfl
  · have h := (call_arity_check 2 gFunc [.Number 1, .Number 2] env0).2 rfl
    rw [h]
    with_unfolding_all rfl

/-- Claim C9 (confirmed): on an arity mismatch the frame pushed at the start
of `Function::call` is not popped — the call fails with the environment
holding exactly one more frame than before. -/
theorem call_arity_error_leaks_frame (fuel : Nat) (f : Func) (args : List Value)
    (env : Environment) (h : f.parameters.length ≠ args.length) :
    (∃ er : RuntimeError, callFunction (fuel+1) f args env = .err er env.push) ∧
    env.push.environment.length = env.environment.length + 1 := by
  constructor
  · refine ⟨⟨"Expected " ++ toString f.parameters.length ++ " arguments, found " ++
        toString args.length ++ ", at line " ++ toString f.name.line⟩, ?_⟩
    simp [callFunction, h]
  · simp [Environment.push]

/-- Witness for C9: the failed 1-argument call to `g` leaves one extra
frame. -/
theorem call_arity_error_leaks_frame_witness :
    (∃ er : RuntimeError, callFunction 1 gFunc [.Number 1] env0 = .err er env0.push) ∧
    env0.push.environment.length = env0.environment.length + 1 :=
  call_arity_error_leaks_frame 0 gFunc [.Number 1] env0 (by decide)

/-- Claim C10 (confirmed): values with different type tags are unordered, so
each of `<`, `<=`, `>`, `>=` evaluates to `Boolean(false)` without error, and
`PartialEq for Value` makes any two `Function` values (even the same one)
compare unequal under `==`. -/
theorem mixed_tag_comparison (v w : Value) (fuel : Nat) (env : Environment)
    (t : Token) (h : v.tag ≠ w.tag) :
    valueLt v w = false ∧ valueLe v w = false ∧ valueGt v w = false ∧
    valueGe v w = false ∧
    (t.tokenType = .Less ∨ t.tokenType = .LessEqual ∨ t.tokenType = .Greater ∨
       t.tokenType = .GreaterEqual →
     evalExpr (fuel+2) (.binary (.literal v) t (.literal w)) env
       = .ok (.Boolean false) env) ∧
    (∀ g : Func, valueEq (.Function g) (.Function g) = false) := by
  have hc := valuePartialCmp_tag_ne v w h
  have hlt : valueLt v w = false := by simp [valueLt, hc]
  have hle : valueLe v w = false := by simp [valueLe, hc]
  have hgt : valueGt v w = false := by simp [valueGt, hc]
  have hge : valueGe v w = false := by simp [valueGe, hc]
  refine ⟨hlt, hle, hgt, hge, ?_, fun g => rfl⟩
  rintro (ht | ht | ht | ht) <;> simp only [evalExpr, ht] <;>
    simp [hlt, hle, hgt, hge]

/-- Witness for C10: `1 < "a"` is `Boolean(false)` with no error, and a
function compared to itself under `==` is `false`. -/
theorem mixed_tag_comparison_witness :
    valueLt (.Number 1) (.String "a") = false ∧
    evalExpr 2 (.binary (.literal (.Number 1)) lessT (.literal (.String "a"))) env0
      = .ok (.Boolean false) env0 ∧
    valueEq (.Function fRec) (.Function fRec) = false := by
  have h := mixed_tag_comparison (.Number 1) (.String "a") 0 env0 lessT (by decide)
  exact ⟨h.1, h.2.2.2.2.1 (Or.inl rfl), h.2.2.2.2.2 fRec⟩

end NotJS
